import Mathlib

/-!
# Verification of yapm (main.py)

Shallow embedding of the yapm package manager's core logic:
the mirror-failover download loop of `download`, the extraction-plan
computation of `install_package`, and the batch orchestration of `main`.
Python strings are modelled as Lean `String`; Python `str.replace` and
`str.strip` are modelled character-list-wise with the same semantics.
-/

set_option autoImplicit false

namespace Yapm

/-! ## Python string primitives used by the source -/

/-- Fuel-indexed worker for `replaceChars`.  One unit of fuel is consumed per
step; callers pass the length of the subject list, which suffices whenever the
pattern is nonempty (as it is at both call sites in the source). -/
def replaceAux (pat repl : List Char) : Nat → List Char → List Char
  | _, [] => []
  | 0, s => s
  | Nat.succ n, c :: cs =>
    if pat.isPrefixOf (c :: cs) then
      repl ++ replaceAux pat repl n ((c :: cs).drop pat.length)
    else
      c :: replaceAux pat repl n cs

/-- Python `s.replace(pat, repl)`: replace non-overlapping occurrences of
`pat` left to right. -/
def replaceChars (pat repl s : List Char) : List Char :=
  replaceAux pat repl s.length s

/-- Python `s.replace(pat, repl)` on `String`. -/
def pyReplace (s pat repl : String) : String :=
  String.mk (replaceChars pat.toList repl.toList s.toList)

/-- Python `s.strip(c)` for a one-character strip set: drop every leading and
every trailing occurrence of `c`. -/
def stripChar (c : Char) (l : List Char) : List Char :=
  ((l.dropWhile (fun x => x = c)).reverse.dropWhile (fun x => x = c)).reverse

/-- Python `s.strip(c)` on `String`. -/
def pyStrip (c : Char) (s : String) : String :=
  String.mk (stripChar c s.toList)

/-! ## Mirror resolution (main.py lines 31-33)

`actual_url = url.replace("$repo", repo).replace("$arch", "x86_64").strip("/")`
-/

/-- The URL computation performed inside `download`: substitute `$repo` by the
repository name, `$arch` by the literal `"x86_64"`, then Python-`strip` the
`/` character.  `download` has no architecture parameter. -/
def resolveMirror (url repo : String) : String :=
  pyStrip '/' (pyReplace (pyReplace url "$repo" repo) "$arch" "x86_64")

/-- Modelled from the spec: the Mirror Resolver contract
`resolve(template, repository, architecture) -> base_url` of spec section 4.1,
with the architecture an explicit parameter.  Used to compare the source's
hard-wired computation against the spec-level three-argument contract. -/
def resolveTemplate (template repo arch : String) : String :=
  pyStrip '/' (pyReplace (pyReplace template "$repo" repo) "$arch" arch)

/-- The URL actually contacted for one mirror template
(main.py line 34: `session.get(f'{actual_url}/{package}')`). -/
def requestUrl (url repo pkg : String) : String :=
  resolveMirror url repo ++ "/" ++ pkg

/-! ## The download mirror loop (main.py lines 29-50) -/

/-- Result of one `session.get` call, as seen by the loop: either the server
produced a response with some status code, or the call raised a
transport-level exception (connection failure etc.), which the source does
not catch. -/
inductive GetResult where
  | resp (status : Nat)
  | raiseTransport
deriving DecidableEq

/-- `aiohttp.ClientResponse.ok`: `True` iff `status < 400`. -/
def respOk (status : Nat) : Bool := status < 400

/-- Outcome of the mirror loop: `success s` when some mirror responded with an
ok status `s` (the loop breaks), `exhausted` when every mirror responded
non-ok (`response is None` afterwards, so `download` returns `(1, None)`),
`raised` when a `session.get` raised and the exception propagated out of
`download` uncaught. -/
inductive DLOutcome where
  | success (status : Nat)
  | exhausted
  | raised
deriving DecidableEq

/-- The `for url in mirrors` loop of `download`.  Input pairs each mirror
template with the result its `session.get` would produce; output is the loop
outcome together with the list of URLs actually contacted, in contact
order. -/
def tryMirrors (repo pkg : String) : List (String × GetResult) → DLOutcome × List String
  | [] => (DLOutcome.exhausted, [])
  | (url, GetResult.raiseTransport) :: _ =>
    (DLOutcome.raised, [requestUrl url repo pkg])
  | (url, GetResult.resp s) :: rest =>
    if respOk s then
      (DLOutcome.success s, [requestUrl url repo pkg])
    else
      let r := tryMirrors repo pkg rest
      (r.1, requestUrl url repo pkg :: r.2)

/-! ## The installer (main.py lines 79-172) -/

/-- One member of the tar archive, as used by the source: its stored name
(path within the archive) and its size in bytes. -/
structure TarEntry where
  name : String
  size : Nat
deriving DecidableEq

/-- Python `name.startswith('.')` (main.py line 126). -/
def startsWithDot (s : String) : Bool :=
  match s.toList with
  | [] => false
  | c :: _ => c = '.'

/-- The error `install_package` raises when its argument checks fail
(the two `assert` statements, main.py lines 90-92); named `InvalidInput`
in the spec's error taxonomy. -/
inductive InstallError where
  | invalidInput
deriving DecidableEq

/-- Modelled from the spec: the `InstallOutcome` record
(entries extracted, total bytes extracted) of spec section 3.
The source never constructs such a value; the type exists to state what,
per the spec, a successful install should return. -/
structure SpecInstallOutcome where
  entriesExtracted : Nat
  totalBytes : Nat
deriving DecidableEq

deriving instance DecidableEq for Except

/-- Observable effects and result of one `install_package` call:
whether decompression ran, the extraction plan `to_be_extracted` in
enumeration order, the accumulated `total_size`, the `tar_archive.extract`
calls as (destination root, member name) pairs in execution order, and the
result: a raised error, or the value returned (the source returns `None`). -/
structure InstallRun where
  decompressed : Bool
  plan : List TarEntry
  totalSize : Nat
  writes : List (String × String)
  result : Except InstallError (Option SpecInstallOutcome)
deriving DecidableEq

/-- `install_package` (main.py lines 79-172).  `pkgIsFile` is
`package.is_file()`, `rootIsDir` is `root_dir.is_dir()`, `fsExists` is
`os.path.exists` on the ambient working directory, `entries` is
`tar_archive.getmembers()` in order.  The asserts run before any other work;
on success the plan keeps entries whose name does not start with `.` and
which either do not exist at their stored path or are overwritten; each
planned entry is extracted to `root_dir`; nothing is returned. -/
def install_package (pkgIsFile rootIsDir : Bool) (fsExists : String → Bool)
    (overwrite : Bool) (rootDir : String) (entries : List TarEntry) : InstallRun :=
  if pkgIsFile = false then
    { decompressed := false, plan := [], totalSize := 0, writes := [],
      result := Except.error InstallError.invalidInput }
  else if rootIsDir = false then
    { decompressed := false, plan := [], totalSize := 0, writes := [],
      result := Except.error InstallError.invalidInput }
  else
    let plan := entries.filter fun e =>
      !startsWithDot e.name && (!fsExists e.name || overwrite)
    { decompressed := true
      plan := plan
      totalSize := (plan.map TarEntry.size).sum
      writes := plan.map (fun e => (rootDir, e.name))
      result := Except.ok none }

/-! ## Batch orchestration after the downloads settle (main.py lines 205-214) -/

/-- What the tail of `main` does once `asyncio.gather` has produced one
return code per package: the failure names written, whether `exit(1)` was
called, and the packages for which `install_package` was invoked, in order. -/
structure BatchRun where
  reportedFailed : List String
  exitCode : Option Nat
  installed : List String
deriving DecidableEq

/-- The `if 1 in returns ... exit(1)` / install loop of `main`
(main.py lines 205-214); `pkgResults` pairs each package name with its
download return code (`0` success, `1` failure), in the common order of
`packages` and `returns`. -/
def mainAfterDownloads (pkgResults : List (String × Nat)) : BatchRun :=
  if pkgResults.any (fun p => p.2 == 1) then
    { reportedFailed := (pkgResults.filter (fun p => p.2 == 1)).map Prod.fst
      exitCode := some 1
      installed := [] }
  else
    { reportedFailed := []
      exitCode := none
      installed := pkgResults.map Prod.fst }

/-! ## Helper lemmas -/

theorem head?_dropWhile_ne {α : Type} (p : α → Bool) :
    ∀ (l : List α) (a : α), (l.dropWhile p).head? = some a → p a = false := by
  intro l
  induction l with
  | nil => intro a h; simp [List.dropWhile] at h
  | cons c cs ih =>
    intro a h
    rw [List.dropWhile_cons] at h
    by_cases hp : p c
    · rw [if_pos hp] at h
      exact ih a h
    · rw [if_neg hp] at h
      simp only [List.head?_cons, Option.some.injEq] at h
      subst h
      exact Bool.eq_false_iff.mpr hp

theorem getLast?_dropWhile_eq {α : Type} (p : α → Bool) :
    ∀ (l : List α), l.dropWhile p ≠ [] → (l.dropWhile p).getLast? = l.getLast? := by
  intro l
  induction l with
  | nil => intro h; simp [List.dropWhile] at h
  | cons c cs ih =>
    intro h
    rw [List.dropWhile_cons] at h ⊢
    by_cases hp : p c
    · rw [if_pos hp] at h ⊢
      have hcs : cs ≠ [] := by
        intro he
        subst he
        simp [List.dropWhile] at h
      obtain ⟨d, ds, rfl⟩ := List.exists_cons_of_ne_nil hcs
      rw [ih h, List.getLast?_cons_cons]
    · rw [if_neg hp]

theorem stripChar_decomp (c : Char) (l : List Char) :
    ∃ pre post, (∀ x ∈ pre, x = c) ∧ (∀ x ∈ post, x = c) ∧
      l = pre ++ stripChar c l ++ post := by
  refine ⟨l.takeWhile (fun x => x = c),
    ((l.dropWhile (fun x => x = c)).reverse.takeWhile (fun x => x = c)).reverse,
    ?_, ?_, ?_⟩
  · intro x hx
    exact of_decide_eq_true (List.mem_takeWhile_imp (p := fun y => decide (y = c)) hx)
  · intro x hx
    rw [List.mem_reverse] at hx
    exact of_decide_eq_true (List.mem_takeWhile_imp (p := fun y => decide (y = c)) hx)
  · conv_lhs =>
      rw [← List.takeWhile_append_dropWhile (fun x => decide (x = c)) l]
    rw [List.append_assoc]
    congr 1
    conv_lhs =>
      rw [← List.reverse_reverse (l.dropWhile (fun x => decide (x = c))),
        ← List.takeWhile_append_dropWhile (fun x => decide (x = c))
          (l.dropWhile (fun x => decide (x = c))).reverse,
        List.reverse_append]
    rfl

theorem stripChar_head?_ne (c : Char) (l : List Char) :
    (stripChar c l).head? ≠ some c := by
  intro h
  unfold stripChar at h
  rw [List.head?_reverse] at h
  have hne : (l.dropWhile (fun x => x = c)).reverse.dropWhile (fun x => x = c) ≠ [] := by
    intro he
    rw [he] at h
    simp at h
  rw [getLast?_dropWhile_eq _ _ hne, List.getLast?_reverse] at h
  have := head?_dropWhile_ne (fun x => decide (x = c)) l c h
  simp at this

theorem stripChar_getLast?_ne (c : Char) (l : List Char) :
    (stripChar c l).getLast? ≠ some c := by
  intro h
  unfold stripChar at h
  rw [List.getLast?_reverse] at h
  have := head?_dropWhile_ne (fun x => decide (x = c))
    (l.dropWhile (fun x => x = c)).reverse c h
  simp at this

/-- `install_package` under satisfied preconditions, written out. -/
theorem install_package_ok (fsExists : String → Bool) (overwrite : Bool)
    (rootDir : String) (entries : List TarEntry) :
    install_package true true fsExists overwrite rootDir entries
      = { decompressed := true
          plan := entries.filter fun e =>
            !startsWithDot e.name && (!fsExists e.name || overwrite)
          totalSize := ((entries.filter fun e =>
            !startsWithDot e.name && (!fsExists e.name || overwrite)).map TarEntry.size).sum
          writes := (entries.filter fun e =>
            !startsWithDot e.name && (!fsExists e.name || overwrite)).map
              (fun e => (rootDir, e.name))
          result := Except.ok none } := rfl

/-! ## Claim C3 (mirror resolution) -/

/-- Claim C3 counterexample: the claim says a leading path separator of the
template is preserved, but Python `strip("/")` trims both ends: the template
`"/$repo/os/$arch/"` with repository `"core"` resolves to
`"core/os/x86_64"`, not `"/core/os/x86_64"`. -/
theorem resolveMirror_drops_leading_separator :
    resolveMirror "/$repo/os/$arch/" "core" = "core/os/x86_64" ∧
    resolveMirror "/$repo/os/$arch/" "core" ≠ "/core/os/x86_64" := by
  constructor
  · decide
  · decide

/-- Claim C3 (amended): mirror resolution is pure string substitution —
replace the repository and architecture placeholders, then strip every
leading and every trailing path separator (both ends, not only trailing),
changing nothing else; it never fails.  Formally: the resolved URL is the
substituted template with some all-`/` prefix and all-`/` suffix removed,
and the result neither starts nor ends with `/`. -/
theorem resolveMirror_substitutes_and_strips (url repo : String) :
    ∃ pre post, (∀ x ∈ pre, x = '/') ∧ (∀ x ∈ post, x = '/') ∧
      (pyReplace (pyReplace url "$repo" repo) "$arch" "x86_64").toList
        = pre ++ (resolveMirror url repo).toList ++ post ∧
      (resolveMirror url repo).toList.head? ≠ some '/' ∧
      (resolveMirror url repo).toList.getLast? ≠ some '/' := by
  obtain ⟨pre, post, h1, h2, h3⟩ :=
    stripChar_decomp '/' (pyReplace (pyReplace url "$repo" repo) "$arch" "x86_64").toList
  exact ⟨pre, post, h1, h2, h3,
    stripChar_head?_ne '/' (pyReplace (pyReplace url "$repo" repo) "$arch" "x86_64").toList,
    stripChar_getLast?_ne '/' (pyReplace (pyReplace url "$repo" repo) "$arch" "x86_64").toList⟩

/-! ## Claim C2 (failure handling in the mirror loop) -/

/-- Claim C2 counterexample: a transport-level failure and a non-2xx status
are not handled identically.  With a transport failure on the first mirror and
a working second mirror, the loop raises after contacting only the first
mirror — it does not record the failure and continue.  Moreover a 304
response (non-2xx but `ok` in aiohttp, since `ok` is `status < 400`) is
treated as a success, not a failure. -/
theorem transport_failure_not_like_status_failure :
    tryMirrors "core" "a.pkg"
        [("https://m1/$repo/os/$arch", GetResult.raiseTransport),
         ("https://m2/$repo/os/$arch", GetResult.resp 200)]
      = (DLOutcome.raised, ["https://m1/core/os/x86_64/a.pkg"]) ∧
    tryMirrors "core" "a.pkg" [("https://m1/$repo/os/$arch", GetResult.resp 304)]
      = (DLOutcome.success 304, ["https://m1/core/os/x86_64/a.pkg"]) := by
  constructor
  · decide
  · decide

/-- Claim C2 (amended): a response with a non-ok status (`status ≥ 400`) is
recorded and iteration continues with the next mirror template, but a
transport-level failure is not caught: it aborts the loop at once — the
remaining mirrors are never contacted and the exception propagates out of
`download` instead of being recorded as that package's failure. -/
theorem status_failure_continues_transport_raises (repo pkg url : String) (s : Nat)
    (rest : List (String × GetResult)) (h : respOk s = false) :
    tryMirrors repo pkg ((url, GetResult.resp s) :: rest)
      = ((tryMirrors repo pkg rest).1,
         requestUrl url repo pkg :: (tryMirrors repo pkg rest).2) ∧
    tryMirrors repo pkg ((url, GetResult.raiseTransport) :: rest)
      = (DLOutcome.raised, [requestUrl url repo pkg]) := by
  constructor
  · simp [tryMirrors, h]
  · simp [tryMirrors]

/-- Claim C2 witness: the amended statement at a concrete input. -/
theorem status_failure_continues_transport_raises_witness :
    tryMirrors "core" "a.pkg"
        [("https://m1/$repo/os/$arch", GetResult.resp 404),
         ("https://m2/$repo/os/$arch", GetResult.resp 200)]
      = ((tryMirrors "core" "a.pkg" [("https://m2/$repo/os/$arch", GetResult.resp 200)]).1,
         requestUrl "https://m1/$repo/os/$arch" "core" "a.pkg"
           :: (tryMirrors "core" "a.pkg" [("https://m2/$repo/os/$arch", GetResult.resp 200)]).2) ∧
    tryMirrors "core" "a.pkg"
        [("https://m1/$repo/os/$arch", GetResult.raiseTransport),
         ("https://m2/$repo/os/$arch", GetResult.resp 200)]
      = (DLOutcome.raised, [requestUrl "https://m1/$repo/os/$arch" "core" "a.pkg"]) :=
  status_failure_continues_transport_raises "core" "a.pkg" "https://m1/$repo/os/$arch" 404
    [("https://m2/$repo/os/$arch", GetResult.resp 200)] (by decide)

/-! ## Claim C4 (mirrors tried in order, first success wins) -/

/-- Claim C4: for every mirror list, the mirrors are tried strictly in list
order and iteration stops at the first successful response: if position `k`
holds the first mirror with an ok response and every earlier mirror responded
non-ok, then the loop succeeds with that response and the contacted URLs are
exactly those of mirrors `0..k`, in order — no mirror after the first
successful one is ever contacted. -/
theorem tryMirrors_first_success (repo pkg : String) :
    ∀ (ps : List (String × GetResult)) (k : Nat) (u : String) (s : Nat),
      ps[k]? = some (u, GetResult.resp s) → respOk s = true →
      (∀ j, j < k → ∀ q, ps[j]? = some q →
        ∃ t, q.2 = GetResult.resp t ∧ respOk t = false) →
      tryMirrors repo pkg ps
        = (DLOutcome.success s,
           (ps.take (k + 1)).map (fun p => requestUrl p.1 repo pkg)) := by
  intro ps
  induction ps with
  | nil => intro k u s h1 _ _; simp at h1
  | cons p rest ih =>
    intro k u s h1 h2 h3
    cases k with
    | zero =>
      rw [List.getElem?_cons_zero] at h1
      injection h1 with h1
      subst h1
      simp [tryMirrors, h2]
    | succ k =>
      obtain ⟨t, hq2, ht⟩ := h3 0 (Nat.succ_pos k) p (by simp)
      obtain ⟨u0, g0⟩ := p
      simp only at hq2
      subst hq2
      rw [List.getElem?_cons_succ] at h1
      have h3' : ∀ j, j < k → ∀ q, rest[j]? = some q →
          ∃ t, q.2 = GetResult.resp t ∧ respOk t = false := by
        intro j hj q hq
        exact h3 (j + 1) (Nat.succ_lt_succ hj) q (by simpa using hq)
      have hrest := ih k u s h1 h2 h3'
      simp [tryMirrors, ht, hrest]

/-- Claim C4 witness: three mirrors, the first failing with 404 and the next
two ok; the loop succeeds on the second and the third is never contacted. -/
theorem tryMirrors_first_success_witness :
    tryMirrors "core" "a.pkg"
        [("https://m1/$repo/os/$arch", GetResult.resp 404),
         ("https://m2/$repo/os/$arch", GetResult.resp 200),
         ("https://m3/$repo/os/$arch", GetResult.resp 200)]
      = (DLOutcome.success 200,
         ["https://m1/core/os/x86_64/a.pkg", "https://m2/core/os/x86_64/a.pkg"]) := by
  have h := tryMirrors_first_success "core" "a.pkg"
    [("https://m1/$repo/os/$arch", GetResult.resp 404),
     ("https://m2/$repo/os/$arch", GetResult.resp 200),
     ("https://m3/$repo/os/$arch", GetResult.resp 200)]
    1 "https://m2/$repo/os/$arch" 200 (by decide) (by decide)
    (by
      intro j hj q hq
      have hj0 : j = 0 := Nat.lt_one_iff.mp hj
      subst hj0
      rw [List.getElem?_cons_zero] at hq
      injection hq with hq
      exact ⟨404, by rw [← hq], by decide⟩)
  rw [h]
  decide

/-! ## Claim C10 (architecture is hard-wired to x86_64) -/

/-- Claim C10: every URL the mirror loop contacts is the spec-level resolver
applied with the architecture fixed to the literal `"x86_64"`: `download`
takes no architecture parameter, so no call can resolve a mirror URL for any
other architecture. -/
theorem contacted_urls_use_x86_64 (repo pkg : String) :
    ∀ (ps : List (String × GetResult)) (x : String),
      x ∈ (tryMirrors repo pkg ps).2 →
      ∃ p, p ∈ ps ∧ x = resolveTemplate p.1 repo "x86_64" ++ "/" ++ pkg := by
  intro ps
  induction ps with
  | nil => intro x hx; simp [tryMirrors] at hx
  | cons p rest ih =>
    intro x hx
    obtain ⟨u, g⟩ := p
    cases g with
    | raiseTransport =>
      simp [tryMirrors] at hx
      exact ⟨(u, GetResult.raiseTransport), by simp, by rw [hx]; rfl⟩
    | resp s =>
      by_cases hs : respOk s
      · simp [tryMirrors, hs] at hx
        exact ⟨(u, GetResult.resp s), by simp, by rw [hx]; rfl⟩
      · simp [tryMirrors, hs] at hx
        cases hx with
        | inl h => exact ⟨(u, GetResult.resp s), by simp, by rw [h]; rfl⟩
        | inr h =>
          obtain ⟨q, hq1, hq2⟩ := ih x h
          exact ⟨q, by simp [hq1], hq2⟩

/-- Claim C10 witness: the contacted URL of a concrete single-mirror run is
the spec resolver's output at architecture `"x86_64"`. -/
theorem contacted_urls_use_x86_64_witness :
    ∃ p, p ∈ [("https://m1/$repo/os/$arch", GetResult.resp 200)] ∧
      "https://m1/core/os/x86_64/a.pkg"
        = resolveTemplate p.1 "core" "x86_64" ++ "/" ++ "a.pkg" :=
  contacted_urls_use_x86_64 "core" "a.pkg"
    [("https://m1/$repo/os/$arch", GetResult.resp 200)]
    "https://m1/core/os/x86_64/a.pkg" (by decide)

/-! ## Claim C1 (install return value) -/

/-- Claim C1 counterexample: a successful install does not return an
`InstallOutcome`.  On a concrete archive with one extractable entry
(1 entry, 7 bytes) the call's result is `Except.ok none` — the source
function ends without a return statement, so `None` comes back, not an
outcome carrying the count and bytes. -/
theorem install_returns_no_outcome :
    (install_package true true (fun _ => false) false "install"
        [{ name := "bin/tool", size := 7 }]).result = Except.ok none ∧
    (install_package true true (fun _ => false) false "install"
        [{ name := "bin/tool", size := 7 }]).result
      ≠ Except.ok (some { entriesExtracted := 1, totalBytes := 7 }) := by
  constructor
  · decide
  · decide

/-- Claim C1 (amended): a successful install computes the entries actually
extracted (the plan) and their total bytes — the total is the sum of the
planned entries' sizes and is used as the progress total, and exactly the
planned entries are extracted — but the operation returns `None`: no
`InstallOutcome` value is handed back to the caller. -/
theorem install_computes_but_returns_none (fsExists : String → Bool) (overwrite : Bool)
    (rootDir : String) (entries : List TarEntry) :
    (install_package true true fsExists overwrite rootDir entries).result
      = Except.ok none ∧
    (install_package true true fsExists overwrite rootDir entries).totalSize
      = (((install_package true true fsExists overwrite rootDir entries).plan).map
          TarEntry.size).sum ∧
    (install_package true true fsExists overwrite rootDir entries).writes
      = ((install_package true true fsExists overwrite rootDir entries).plan).map
          (fun e => (rootDir, e.name)) := by
  rw [install_package_ok]
  exact ⟨rfl, rfl, rfl⟩

/-! ## Claim C5 (extraction plan under the overwrite policy) -/

/-- Claim C5: for an entry whose name does not start with `.`, membership in
the extraction plan is exactly "does not exist at its stored path, or
overwrite is set"; a skipped entry's path is never written; and the plan is
identical for every installation root, because the existence check reads the
entry's stored path in the ambient working context, not the path joined with
`root_dir`. -/
theorem plan_membership_overwrite (fsExists : String → Bool) (overwrite : Bool)
    (root root' : String) (entries : List TarEntry) (e : TarEntry)
    (he : e ∈ entries) (hdot : startsWithDot e.name = false) :
    (e ∈ (install_package true true fsExists overwrite root entries).plan
        ↔ (fsExists e.name = false ∨ overwrite = true)) ∧
    (fsExists e.name = true → overwrite = false →
      (root, e.name) ∉ (install_package true true fsExists overwrite root entries).writes) ∧
    (install_package true true fsExists overwrite root entries).plan
      = (install_package true true fsExists overwrite root' entries).plan := by
  rw [install_package_ok, install_package_ok]
  refine ⟨?_, ?_, rfl⟩
  · rw [List.mem_filter]
    simp [he, hdot]
  · intro hex hov h
    simp only [List.mem_map, List.mem_filter] at h
    obtain ⟨x, ⟨_, hx2⟩, hx3⟩ := h
    have hname : x.name = e.name := congrArg Prod.snd hx3
    rw [hname, hdot, hex, hov] at hx2
    simp at hx2

/-- Claim C5 witness: with one pre-existing entry and overwrite off, the
entry is not in the plan and its path is not written; plan membership and
root-independence hold at this input. -/
theorem plan_membership_overwrite_witness :
    (({ name := "etc/conf", size := 3 } : TarEntry)
        ∈ (install_package true true (fun n => n == "etc/conf") false "install"
            [{ name := "etc/conf", size := 3 }]).plan
      ↔ ((fun n : String => n == "etc/conf") "etc/conf" = false ∨ false = true)) ∧
    ((fun n : String => n == "etc/conf") "etc/conf" = true → false = false →
      ("install", "etc/conf")
        ∉ (install_package true true (fun n => n == "etc/conf") false "install"
            [{ name := "etc/conf", size := 3 }]).writes) ∧
    (install_package true true (fun n => n == "etc/conf") false "install"
        [{ name := "etc/conf", size := 3 }]).plan
      = (install_package true true (fun n => n == "etc/conf") false "other"
        [{ name := "etc/conf", size := 3 }]).plan :=
  plan_membership_overwrite (fun n => n == "etc/conf") false "install" "other"
    [{ name := "etc/conf", size := 3 }] { name := "etc/conf", size := 3 }
    (by decide) (by decide)

/-! ## Claim C6 (dot entries never extracted) -/

/-- Claim C6: an entry whose name starts with `.` is excluded from the
extraction plan and never extracted, for both values of the overwrite flag
(the statement quantifies over `overwrite`). -/
theorem dot_entries_never_extracted (fsExists : String → Bool) (overwrite : Bool)
    (root : String) (entries : List TarEntry) (e : TarEntry)
    (hdot : startsWithDot e.name = true) :
    e ∉ (install_package true true fsExists overwrite root entries).plan ∧
    (root, e.name) ∉ (install_package true true fsExists overwrite root entries).writes := by
  rw [install_package_ok]
  constructor
  · intro h
    rw [List.mem_filter] at h
    rw [hdot] at h
    simp at h
  · intro h
    simp only [List.mem_map, List.mem_filter] at h
    obtain ⟨x, ⟨_, hx2⟩, hx3⟩ := h
    have hname : x.name = e.name := congrArg Prod.snd hx3
    rw [hname, hdot] at hx2
    simp at hx2

/-- Claim C6 witness: the metadata entry `.BUILDINFO` of a concrete archive
is not planned and not written, even with overwrite on. -/
theorem dot_entries_never_extracted_witness :
    ({ name := ".BUILDINFO", size := 11 } : TarEntry)
        ∉ (install_package true true (fun _ => false) true "install"
            [{ name := ".BUILDINFO", size := 11 }, { name := "bin/tool", size := 7 }]).plan ∧
    ("install", ".BUILDINFO")
        ∉ (install_package true true (fun _ => false) true "install"
            [{ name := ".BUILDINFO", size := 11 }, { name := "bin/tool", size := 7 }]).writes :=
  dot_entries_never_extracted (fun _ => false) true "install"
    [{ name := ".BUILDINFO", size := 11 }, { name := "bin/tool", size := 7 }]
    { name := ".BUILDINFO", size := 11 } (by decide)

/-! ## Claim C7 (invalid input fails before any work) -/

/-- Claim C7: when the package path is not a regular file or the root path is
not a directory, install fails with the `InvalidInput` error immediately:
no decompression is performed, the plan is empty, and nothing is written. -/
theorem invalid_input_no_work (pkgIsFile rootIsDir : Bool) (fsExists : String → Bool)
    (overwrite : Bool) (rootDir : String) (entries : List TarEntry)
    (h : pkgIsFile = false ∨ rootIsDir = false) :
    install_package pkgIsFile rootIsDir fsExists overwrite rootDir entries
      = { decompressed := false, plan := [], totalSize := 0, writes := [],
          result := Except.error InstallError.invalidInput } := by
  rcases h with h | h
  · subst h
    simp [install_package]
  · subst h
    cases pkgIsFile
    · simp [install_package]
    · simp [install_package]

/-- Claim C7 witness: a non-file package path fails with `InvalidInput` and
performs no work, even with entries available. -/
theorem invalid_input_no_work_witness :
    install_package false true (fun _ => false) true "install"
        [{ name := "bin/tool", size := 7 }]
      = { decompressed := false, plan := [], totalSize := 0, writes := [],
          result := Except.error InstallError.invalidInput } :=
  invalid_input_no_work false true (fun _ => false) true "install"
    [{ name := "bin/tool", size := 7 }] (Or.inl rfl)

/-! ## Claim C8 (batch abort on any failure) -/

/-- Claim C8: if any package's download return code is `1`, the run reports
exactly the failing packages' names, exits with code 1, and installs nothing
— not even the successfully downloaded packages; if every download
succeeded, every package is installed and nothing is reported failed. -/
theorem batch_abort_or_install_all (pkgResults : List (String × Nat)) :
    ((∃ p ∈ pkgResults, p.2 = 1) →
      (mainAfterDownloads pkgResults).installed = [] ∧
      (mainAfterDownloads pkgResults).exitCode = some 1 ∧
      (mainAfterDownloads pkgResults).reportedFailed
        = (pkgResults.filter fun p => p.2 == 1).map Prod.fst) ∧
    ((∀ p ∈ pkgResults, p.2 ≠ 1) →
      (mainAfterDownloads pkgResults).installed = pkgResults.map Prod.fst ∧
      (mainAfterDownloads pkgResults).exitCode = none ∧
      (mainAfterDownloads pkgResults).reportedFailed = []) := by
  constructor
  · intro h
    have hany : pkgResults.any (fun p => p.2 == 1) = true := by
      rw [List.any_eq_true]
      obtain ⟨p, hp, he⟩ := h
      exact ⟨p, hp, by simp [he]⟩
    simp [mainAfterDownloads, hany]
  · intro h
    have hany : pkgResults.any (fun p => p.2 == 1) = false := by
      rw [Bool.eq_false_iff]
      intro hc
      rw [List.any_eq_true] at hc
      obtain ⟨p, hp, he⟩ := hc
      exact h p hp (by simpa using he)
    simp [mainAfterDownloads, hany]

/-- Claim C8 witness: one failing download aborts the whole batch with no
installs; an all-success batch installs every package. -/
theorem batch_abort_or_install_all_witness :
    ((mainAfterDownloads [("a.pkg", 0), ("b.pkg", 1)]).installed = [] ∧
      (mainAfterDownloads [("a.pkg", 0), ("b.pkg", 1)]).exitCode = some 1 ∧
      (mainAfterDownloads [("a.pkg", 0), ("b.pkg", 1)]).reportedFailed
        = ([("a.pkg", 0), ("b.pkg", 1)].filter fun p => p.2 == 1).map Prod.fst) ∧
    ((mainAfterDownloads [("a.pkg", 0), ("c.pkg", 0)]).installed
        = [("a.pkg", 0), ("c.pkg", 0)].map Prod.fst ∧
      (mainAfterDownloads [("a.pkg", 0), ("c.pkg", 0)]).exitCode = none ∧
      (mainAfterDownloads [("a.pkg", 0), ("c.pkg", 0)]).reportedFailed = []) :=
  ⟨(batch_abort_or_install_all [("a.pkg", 0), ("b.pkg", 1)]).1
      ⟨("b.pkg", 1), by decide, rfl⟩,
   (batch_abort_or_install_all [("a.pkg", 0), ("c.pkg", 0)]).2
      (by decide)⟩

end Yapm
